import Mathlib

/-!
Verification of the statistics and data-cleaning engine of a tabular
data-analysis service (`backend/services/data_cleaning.py`,
`backend/services/statistics.py`, and the `clean-dataset` endpoint of
`backend/main.py`).

Modelling conventions:
* a cell is `Option ℚ` — `none` is a null (NaN) entry, `some q` a numeric
  value; exact rationals stand in for floats, so float rounding is
  abstracted away but every comparison and branch of the source is kept;
* pandas/NumPy NaN results of a computation (for example a percentage
  `0/0`, or the quantile of an empty series) are modelled as `Option ℚ`
  with `none` for NaN;
* scipy `stats.zscore` divides by the population standard deviation
  (`ddof = 0`); on a constant column that divisor is `0` and every
  z-score is NaN, and any comparison with NaN is false.  The Boolean
  flag/keep definitions below encode exactly those comparison outcomes
  without forming the square root: for `σ > 0`, `|x−μ|/σ > 3` iff
  `(x−μ)² > 9·σ²`, and for `σ = 0` both `NaN > 3` and `NaN ≤ 3` are
  false.
-/

/-- dropNones l is the null-dropped content of a column, in order
(pandas `Series.dropna()`). -/
def dropNones (l : List (Option ℚ)) : List ℚ :=
  l.filterMap id

/-- dropNonesIdx keeps each surviving value paired with its original row
position, mirroring the pandas index that `dropna` preserves. -/
def dropNonesIdx (l : List (Option ℚ)) : List (Nat × ℚ) :=
  l.enum.filterMap (fun p => p.2.map (fun v => (p.1, v)))

/-- meanQ computes the arithmetic mean (pandas `Series.mean`, NumPy
`mean`); on the empty list the rational division `0 / 0 = 0` is junk and
is never relied upon. -/
def meanQ (l : List ℚ) : ℚ :=
  l.sum / l.length

/-- sqDevSum is the sum of squared deviations from the mean, the common
numerator of the population and the sample variance. -/
def sqDevSum (l : List ℚ) : ℚ :=
  (l.map (fun x => (x - meanQ l) ^ 2)).sum

/-- popVarQ is the population variance (`ddof = 0`), the default used by
scipy `stats.zscore`. -/
def popVarQ (l : List ℚ) : ℚ :=
  sqDevSum l / l.length

/-- sampleVarQ is the sample variance (`ddof = 1`), the default of pandas
`Series.var`; it appears here only in the spec-worded reading of the
z-score. -/
def sampleVarQ (l : List ℚ) : ℚ :=
  sqDevSum l / (l.length - 1)

/-- insertSorted inserts a value into a sorted list, keeping ascending
order. -/
def insertSorted (x : ℚ) : List ℚ → List ℚ
  | [] => [x]
  | y :: ys => if x ≤ y then x :: y :: ys else y :: insertSorted x ys

/-- sortQ sorts a list of rationals ascending (insertion sort), the
sorting step behind the pandas linear-interpolation quantile. -/
def sortQ (l : List ℚ) : List ℚ :=
  l.foldr insertSorted []

/-- quantileQ computes `Series.quantile(q)` with the default linear
interpolation: with the data sorted ascending as x₀ … xₙ₋₁ and
h = (n−1)·q, the result is x⌊h⌋ + (h−⌊h⌋)·(x⌊h⌋₊₁ − x⌊h⌋).  On the empty
list the result 0 is junk (pandas returns NaN); callers that can meet an
empty list handle it separately.  interpLinear is the interpolation step
on the already-sorted data. -/
def interpLinear (s : List ℚ) (h : ℚ) : ℚ :=
  s.getD (⌊h⌋).toNat 0 +
    (h - ((⌊h⌋).toNat : ℚ)) *
      (s.getD ((⌊h⌋).toNat + 1) (s.getD (⌊h⌋).toNat 0) - s.getD (⌊h⌋).toNat 0)

def quantileQ (l : List ℚ) (q : ℚ) : ℚ :=
  interpLinear (sortQ l) (((l.length : ℚ) - 1) * q)

/-- zscoreFlag is the outlier test of `detect_outliers`, method
`"zscore"`: `np.abs(stats.zscore(data)) > 3`.  For population variance
σ² > 0 this is `|x−μ|/σ > 3`, i.e. `(x−μ)² > 9σ²`; for σ² = 0 the
z-score is NaN and `NaN > 3` is false, which the strict inequality
`0 > 0` reproduces. -/
def zscoreFlag (data : List ℚ) (x : ℚ) : Bool :=
  decide ((x - meanQ data) ^ 2 > 9 * popVarQ data)

/-- iqrLowerBound is `q1 - 1.5 * iqr` from `detect_outliers`, method
`"iqr"` (only meaningful on non-empty data). -/
def iqrLowerBound (data : List ℚ) : ℚ :=
  quantileQ data (1/4) - 3/2 * (quantileQ data (3/4) - quantileQ data (1/4))

/-- iqrUpperBound is `q3 + 1.5 * iqr` from `detect_outliers`, method
`"iqr"`. -/
def iqrUpperBound (data : List ℚ) : ℚ :=
  quantileQ data (3/4) + 3/2 * (quantileQ data (3/4) - quantileQ data (1/4))

/-- iqrFlag is the outlier test of `detect_outliers`, method `"iqr"`:
`(data < lower_bound) | (data > upper_bound)`. -/
def iqrFlag (data : List ℚ) (x : ℚ) : Bool :=
  decide (x < iqrLowerBound data ∨ iqrUpperBound data < x)

/-- zscoreKeep is the retention test of the outlier-removal stage of
`clean_dataset`, method `"zscore"`: `z_scores <= 3`.  For σ² = 0 every
z-score is NaN and `NaN <= 3` is false, hence the `popVarQ data ≠ 0`
conjunct. -/
def zscoreKeep (data : List ℚ) (x : ℚ) : Bool :=
  decide (popVarQ data ≠ 0 ∧ (x - meanQ data) ^ 2 ≤ 9 * popVarQ data)

/-- iqrKeep is the retention test of the outlier-removal stage of
`clean_dataset`, method `"iqr"`:
`(data >= lower_bound) & (data <= upper_bound)`. -/
def iqrKeep (data : List ℚ) (x : ℚ) : Bool :=
  decide (iqrLowerBound data ≤ x ∧ x ≤ iqrUpperBound data)

/-- OutlierInfo is the report built by
`DataCleaningService.detect_outliers`.  Fields that one method leaves
unset, and every float field whose value can be NaN (the percentage on a
zero-length column, the IQR bounds of an empty column), are `Option ℚ`
with `none` for absent/NaN. -/
structure OutlierInfo where
  method : String
  threshold : Option ℚ
  lower_bound : Option ℚ
  upper_bound : Option ℚ
  total_outliers : Nat
  outlier_percentage : Option ℚ
  outlier_indices : List Nat
  outlier_values : List ℚ
deriving Repr, DecidableEq

/-- pctOf models `float((k / len(data)) * 100)`: NumPy division of the
integer count by a zero length yields NaN (modelled `none`), otherwise
the exact rational percentage. -/
def pctOf (k n : Nat) : Option ℚ :=
  if n = 0 then none else some ((k : ℚ) / (n : ℚ) * 100)

/-- detect_outliers embeds `DataCleaningService.detect_outliers` applied
to one column: the argument is the raw column (with nulls), the method
string is dispatched exactly as in the source, and an unknown method
raises `ValueError`. -/
def detect_outliers (values : List (Option ℚ)) (method : String) :
    Except String OutlierInfo :=
  let pairs := dropNonesIdx values
  let data := pairs.map Prod.snd
  if method = "zscore" then
    let flagged := pairs.filter (fun p => zscoreFlag data p.2)
    .ok { method := "Z-Score"
          threshold := some 3
          lower_bound := none
          upper_bound := none
          total_outliers := flagged.length
          outlier_percentage := pctOf flagged.length data.length
          outlier_indices := (flagged.map Prod.fst).take 100
          outlier_values := (flagged.map Prod.snd).take 10 }
  else if method = "iqr" then
    if data.isEmpty then
      -- quantiles of an empty series are NaN, so both bounds are NaN,
      -- every NaN comparison is false and nothing is flagged
      .ok { method := "IQR"
            threshold := none
            lower_bound := none
            upper_bound := none
            total_outliers := 0
            outlier_percentage := pctOf 0 data.length
            outlier_indices := []
            outlier_values := [] }
    else
      let flagged := pairs.filter (fun p => iqrFlag data p.2)
      .ok { method := "IQR"
            threshold := none
            lower_bound := some (iqrLowerBound data)
            upper_bound := some (iqrUpperBound data)
            total_outliers := flagged.length
            outlier_percentage := pctOf flagged.length data.length
            outlier_indices := (flagged.map Prod.fst).take 100
            outlier_values := (flagged.map Prod.snd).take 10 }
  else
    .error "Method must be zscore or iqr"

/-! ## The cleaning pipeline -/

/-- Row is one dataframe row: one optional rational per column. -/
abbrev Row := List (Option ℚ)

/-- DataFrame is the tabular snapshot the cleaning pipeline works on:
named columns and rows of cells, a row's j-th cell belonging to the j-th
column. -/
structure DataFrame where
  columns : List String
  rows : List Row
deriving Repr, DecidableEq

/-- getCell reads the j-th cell of a row (`none` when null or out of
range). -/
def getCell (r : Row) (j : Nat) : Option ℚ :=
  (r.get? j).join

/-- colValues collects the non-null values of column j, in row order:
`cleaned_df[outlier_column].dropna()` without the index. -/
def colValues (rows : List Row) (j : Nat) : List ℚ :=
  rows.filterMap (fun r => getCell r j)

/-- dropnaRows is `DataFrame.dropna()`: keep exactly the rows with no
null in any column. -/
def dropnaRows (rows : List Row) : List Row :=
  rows.filter (fun r => r.all (fun c => c.isSome))

/-- fillColumn fills the nulls of column j with the statistic `stat` of
its current non-null values; a column with no non-null value is left
alone, because `fillna` with a NaN fill value changes nothing. -/
def fillColumn (stat : List ℚ → ℚ) (rows : List Row) (j : Nat) : List Row :=
  match colValues rows j with
  | [] => rows
  | v :: vs =>
      rows.map (fun r =>
        match getCell r j with
        | some _ => r
        | none => r.set j (some (stat (v :: vs))))

/-- fillMissing is `df[numeric_cols].fillna(df[numeric_cols].mean())`
(or `.median()`): every column is filled with its own pre-fill
statistic.  Columns are processed left to right, which agrees with the
simultaneous pandas fill because filling column j never changes the
non-null values any other column reads.  All modelled columns are
numeric, matching `select_dtypes(include=[np.number])` on this cell
type. -/
def fillMissing (stat : List ℚ → ℚ) (df : DataFrame) : DataFrame :=
  { df with rows := (List.range df.columns.length).foldl (fillColumn stat) df.rows }

/-- applyMissing is the first stage of `clean_dataset`: the
`handle_missing` if/elif chain.  The source has no else branch, so an
unrecognized policy leaves the dataframe unchanged. -/
def applyMissing (df : DataFrame) (handle_missing : String) : DataFrame :=
  if handle_missing = "drop" then { df with rows := dropnaRows df.rows }
  else if handle_missing = "mean" then fillMissing meanQ df
  else if handle_missing = "median" then fillMissing (fun l => quantileQ l (1/2)) df
  else df

/-- dedupRows is `DataFrame.drop_duplicates()`: keep the first occurrence
of every full-row value, preserving order. -/
def dedupRows : List Row → List Row
  | [] => []
  | r :: rs => r :: dedupRows (rs.filter (fun x => x ≠ r))
termination_by l => l.length
decreasing_by
  exact Nat.lt_succ_of_le (List.length_filter_le _ _)

/-- applyDedup is the second stage of `clean_dataset`: duplicate removal
when the flag is set. -/
def applyDedup (df : DataFrame) (remove_duplicates : Bool) : DataFrame :=
  if remove_duplicates then { df with rows := dedupRows df.rows } else df

/-- keepByMethod dispatches the per-value retention test of the
outlier-removal stage on the method string, mirroring the inner
if/elif/else of `clean_dataset`; an unknown method raises `ValueError`. -/
def keepByMethod (method : String) (data : List ℚ) : Except String (ℚ → Bool) :=
  if method = "zscore" then .ok (zscoreKeep data)
  else if method = "iqr" then .ok (iqrKeep data)
  else .error "Method must be zscore or iqr"

/-- outlierStageRows filters the rows by the `full_mask` of the source:
a row whose target cell is null keeps its initial `True` mask entry and
is retained; a row with a non-null target value is retained exactly when
the retention test accepts that value. -/
def outlierStageRows (rows : List Row) (j : Nat) (keep : ℚ → Bool) : List Row :=
  rows.filter (fun r =>
    match getCell r j with
    | some v => keep v
    | none => true)

/-- applyOutlier is the third stage of `clean_dataset`.  The guard
`if remove_outliers and outlier_column:` of the source runs the stage
only when the flag is set and the column argument is truthy (in Python,
`None` and the empty string are falsy); a truthy column absent from the
current dataframe raises `ValueError` before the method is examined. -/
def applyOutlier (df : DataFrame) (remove_outliers : Bool)
    (outlier_column : Option String) (outlier_method : String) :
    Except String DataFrame :=
  match outlier_column with
  | none => .ok df
  | some c =>
      if remove_outliers = true ∧ c ≠ "" then
        if c ∈ df.columns then
          match keepByMethod outlier_method
              (colValues df.rows (df.columns.indexOf c)) with
          | .error e => .error e
          | .ok keep =>
              .ok { df with
                    rows := outlierStageRows df.rows (df.columns.indexOf c) keep }
        else
          .error ("Column " ++ c ++ " not found")
      else
        .ok df

/-- clean_dataset embeds `DataCleaningService.clean_dataset`: the three
stages in their fixed order, each consuming the previous output. -/
def clean_dataset (df : DataFrame) (handle_missing : String)
    (remove_duplicates remove_outliers : Bool)
    (outlier_column : Option String) (outlier_method : String) :
    Except String DataFrame :=
  applyOutlier (applyDedup (applyMissing df handle_missing) remove_duplicates)
    remove_outliers outlier_column outlier_method

/-! ## The statistics engine -/

/-- Dtype is the pandas dtype classification of a column as the
statistics service consumes it. -/
inductive Dtype
  | numeric
  | boolean
  | datetime
  | object
deriving Repr, DecidableEq

/-- is_numeric_dtype embeds `pd.api.types.is_numeric_dtype`, which holds
of the numeric dtypes AND of `bool`, and fails on `datetime64` and
`object`. -/
def is_numeric_dtype : Dtype → Bool
  | .numeric => true
  | .boolean => true
  | .datetime => false
  | .object => false

/-- ColumnData is one column as `calculate_statistics` sees it after the
upload parse: the dtype together with the cell values.  A `bool` column
carries no nulls (pandas stores a bool column with nulls as `object`);
datetime and object cells are opaque scalars with decidable equality. -/
inductive ColumnData
  | numericCol (values : List (Option ℚ))
  | boolCol (values : List Bool)
  | datetimeCol (values : List (Option ℤ))
  | objectCol (values : List (Option String))
deriving Repr, DecidableEq

/-- dtypeOf reads the dtype a `ColumnData` carries. -/
def dtypeOf : ColumnData → Dtype
  | .numericCol _ => .numeric
  | .boolCol _ => .boolean
  | .datetimeCol _ => .datetime
  | .objectCol _ => .object

/-- NumericSummary holds the rational-valued fields of
`_numeric_statistics` for non-empty data.  The square-root and
test-statistic fields of the source (std-dev, skewness, kurtosis, the
Shapiro–Wilk/Kolmogorov–Smirnov result, the PDF/CDF samples) are
real-valued and touched by no claim, so they are not carried here; the
variance shown is the sample variance `Series.var()` of the source. -/
structure NumericSummary where
  count : Nat
  mean : ℚ
  median : ℚ
  variance : ℚ
  min : ℚ
  max : ℚ
  q1 : ℚ
  q3 : ℚ
  iqr : ℚ
deriving Repr, DecidableEq

/-- CatSummary holds the counting fields of `_categorical_statistics`.
The mode value and the top-10 frequency table are omitted: their
tie-breaking order is pandas-internal and no claim touches them;
`mode_frequency` is the count of the most common value (`0` if the
column is empty), `unique_values` is `Series.nunique()`. -/
structure CatSummary where
  count : Nat
  unique_values : Nat
  mode_frequency : Nat
deriving Repr, DecidableEq

/-- countDistinct counts the distinct elements of a list. -/
def countDistinct {α : Type} [DecidableEq α] (l : List α) : Nat :=
  l.eraseDups.length

/-- modeFrequency is the largest multiplicity of any element (`0` on an
empty list). -/
def modeFrequency {α : Type} [DecidableEq α] (l : List α) : Nat :=
  (l.map (fun x => l.count x)).foldr Nat.max 0

/-- ColStats is the per-column result of `calculate_statistics`: a
numeric summary, a categorical summary, or the explicit
`{"error": "No numeric data available"}` marker of
`_numeric_statistics` on empty data. -/
inductive ColStats
  | numeric (s : NumericSummary)
  | categorical (s : CatSummary)
  | noNumericData
deriving Repr, DecidableEq

/-- numeric_statistics embeds `_numeric_statistics` on the null-dropped
values: empty data returns the explicit no-data marker, otherwise the
summary fields are computed from the data (median and quartiles with
linear interpolation, variance with the `n−1` denominator). -/
def numeric_statistics (data : List ℚ) : ColStats :=
  if data.isEmpty then .noNumericData
  else
    .numeric
      { count := data.length
        mean := meanQ data
        median := quantileQ data (1/2)
        variance := sampleVarQ data
        min := data.foldr min (data.headD 0)
        max := data.foldr max (data.headD 0)
        q1 := quantileQ data (1/4)
        q3 := quantileQ data (3/4)
        iqr := quantileQ data (3/4) - quantileQ data (1/4) }

/-- categorical_statistics embeds the counting fields of
`_categorical_statistics` on the null-dropped values. -/
def categorical_statistics {α : Type} [DecidableEq α] (data : List α) : ColStats :=
  .categorical
    { count := data.length
      unique_values := countDistinct data
      mode_frequency := modeFrequency data }

/-- calculate_statistics_column is the per-column body of
`calculate_statistics`: drop the nulls, then route on
`is_numeric_dtype` — numeric and bool dtypes to `_numeric_statistics`
(bool values coerce to 0/1), datetime and object dtypes to
`_categorical_statistics`. -/
def calculate_statistics_column : ColumnData → ColStats
  | .numericCol vs => numeric_statistics (dropNones vs)
  | .boolCol vs => numeric_statistics (vs.map (fun b => if b then (1 : ℚ) else 0))
  | .datetimeCol vs => categorical_statistics (vs.filterMap id)
  | .objectCol vs => categorical_statistics (vs.filterMap id)

/-! ## Spec-worded definitions, for refinement comparison only -/

/-- zscoreFlagSample follows the spec sentence word for word — the
z-score computed with the SAMPLE standard deviation (`n−1` denominator),
flagging `|z| > 3` — to be compared with `zscoreFlag`, which embeds the
source (scipy `stats.zscore`, population standard deviation). -/
def zscoreFlagSample (data : List ℚ) (x : ℚ) : Bool :=
  decide ((x - meanQ data) ^ 2 > 9 * sampleVarQ data)

/-- categoricalPerSpec follows the spec sentence word for word — a
column is treated as numeric only if its derived type is numeric, and
boolean/datetime columns are categorical — to be compared with the
routing of `calculate_statistics_column`. -/
def categoricalPerSpec (dt : Dtype) : Bool :=
  match dt with
  | .numeric => false
  | _ => true

/-! ## General lemmas about the embedded operations -/

/-- map_snd_dropNonesIdx: forgetting the indices of `dropNonesIdx`
recovers `dropNones`. -/
theorem map_snd_dropNonesIdx (l : List (Option ℚ)) :
    (dropNonesIdx l).map Prod.snd = dropNones l := by
  unfold dropNonesIdx dropNones
  rw [List.enum]
  generalize 0 = n
  induction l generalizing n with
  | nil => simp
  | cons o t ih =>
      cases o with
      | none => simpa using ih (n + 1)
      | some v => simpa using ih (n + 1)

/-- snd_mem_of_mem_dropNonesIdx: the value component of an indexed
survivor is a survivor. -/
theorem snd_mem_of_mem_dropNonesIdx {p : Nat × ℚ} {l : List (Option ℚ)}
    (h : p ∈ dropNonesIdx l) : p.2 ∈ dropNones l := by
  rw [← map_snd_dropNonesIdx]
  exact List.mem_map_of_mem Prod.snd h

/-- eq_replicate_of_all_eq: a list whose elements all equal v is a
replicate of v. -/
theorem eq_replicate_of_all_eq {l : List ℚ} {v : ℚ} (h : ∀ x ∈ l, x = v) :
    l = List.replicate l.length v := by
  induction l with
  | nil => rfl
  | cons a t ih =>
      have ha : a = v := h a (by simp)
      have ht : t = List.replicate t.length v := ih (fun x hx => h x (by simp [hx]))
      simp [List.replicate, ha, ← ht]

/-- meanQ_replicate: the mean of a constant non-empty list is the
constant. -/
theorem meanQ_replicate {n : Nat} (hn : n ≠ 0) (v : ℚ) :
    meanQ (List.replicate n v) = v := by
  unfold meanQ
  rw [List.sum_replicate, List.length_replicate]
  rw [nsmul_eq_mul]
  field_simp

/-- sqDevSum_replicate: a constant list has zero squared-deviation
sum. -/
theorem sqDevSum_replicate (n : Nat) (v : ℚ) :
    sqDevSum (List.replicate n v) = 0 := by
  unfold sqDevSum
  cases n with
  | zero => simp
  | succ m =>
      rw [meanQ_replicate (Nat.succ_ne_zero m) v]
      have : (List.replicate (m + 1) v).map (fun x => (x - v) ^ 2) =
          List.replicate (m + 1) 0 := by
        rw [List.map_replicate]
        simp
      rw [this, List.sum_replicate]
      simp

/-- popVarQ_replicate: a constant list has zero population variance. -/
theorem popVarQ_replicate (n : Nat) (v : ℚ) :
    popVarQ (List.replicate n v) = 0 := by
  unfold popVarQ
  rw [sqDevSum_replicate]
  simp

/-- zscoreFlag_replicate: on a constant column the z-score method flags
nothing (all z-scores are NaN, and NaN > 3 is false). -/
theorem zscoreFlag_replicate {n : Nat} (hn : n ≠ 0) (v : ℚ) :
    zscoreFlag (List.replicate n v) v = false := by
  unfold zscoreFlag
  rw [popVarQ_replicate, meanQ_replicate hn]
  simp

/-- sortQ_replicate: sorting a constant list changes nothing. -/
theorem sortQ_replicate (n : Nat) (v : ℚ) :
    sortQ (List.replicate n v) = List.replicate n v := by
  induction n with
  | zero => rfl
  | succ m ih =>
      have h1 : List.replicate (m + 1) v = v :: List.replicate m v := rfl
      rw [h1]
      unfold sortQ at ih ⊢
      rw [List.foldr_cons, ih]
      cases m with
      | zero => rfl
      | succ k =>
          have h2 : List.replicate (k + 1) v = v :: List.replicate k v := rfl
          rw [h2]
          unfold insertSorted
          simp

/-- getD_replicate: indexing a replicate in range yields the constant. -/
theorem getD_replicate {n i : Nat} (hi : i < n) (v d : ℚ) :
    (List.replicate n v).getD i d = v := by
  rw [List.getD_eq_getElem _ _ (by simpa using hi)]
  simp

/-- quantileQ_replicate: every quantile of a constant non-empty list is
the constant. -/
theorem quantileQ_replicate {n : Nat} (hn : n ≠ 0) {q : ℚ} (_hq0 : 0 ≤ q)
    (hq1 : q ≤ 1) (v : ℚ) : quantileQ (List.replicate n v) q = v := by
  have hn1 : (1 : ℚ) ≤ (n : ℚ) := by
    exact_mod_cast Nat.one_le_iff_ne_zero.mpr hn
  have hhn : ((n : ℚ) - 1) * q ≤ (n : ℚ) - 1 := by
    calc ((n : ℚ) - 1) * q ≤ ((n : ℚ) - 1) * 1 := by
          apply mul_le_mul_of_nonneg_left hq1 (by linarith)
      _ = (n : ℚ) - 1 := by ring
  have hfl : (⌊((n : ℚ) - 1) * q⌋).toNat < n := by
    have h1 : ⌊((n : ℚ) - 1) * q⌋ ≤ ⌊(n : ℚ) - 1⌋ := Int.floor_le_floor hhn
    have h2 : ⌊(n : ℚ) - 1⌋ = (n : ℤ) - 1 := by
      rw [show ((n : ℚ) - 1) = (((n : ℤ) - 1 : ℤ) : ℚ) by push_cast; ring]
      exact Int.floor_intCast _
    omega
  unfold quantileQ interpLinear
  rw [sortQ_replicate, List.length_replicate]
  rw [getD_replicate hfl]
  by_cases hsucc : (⌊((n : ℚ) - 1) * q⌋).toNat + 1 < n
  · rw [getD_replicate hsucc]
    ring
  · rw [List.getD_eq_default]
    · ring
    · simpa using Nat.le_of_not_lt hsucc

/-- iqrFlag_replicate: on a constant column the IQR bounds collapse to
the value, and nothing is strictly outside them. -/
theorem iqrFlag_replicate {n : Nat} (hn : n ≠ 0) (v : ℚ) :
    iqrFlag (List.replicate n v) v = false := by
  have hq : quantileQ (List.replicate n v) (1/4) = v :=
    quantileQ_replicate hn (by norm_num) (by norm_num) v
  have hq3 : quantileQ (List.replicate n v) (3/4) = v :=
    quantileQ_replicate hn (by norm_num) (by norm_num) v
  unfold iqrFlag iqrLowerBound iqrUpperBound
  rw [hq, hq3]
  simp

/-- dedupRows_cons: the unfolding equation of keep-first duplicate
removal. -/
theorem dedupRows_cons (r : Row) (rs : List Row) :
    dedupRows (r :: rs) = r :: dedupRows (rs.filter (fun x => x ≠ r)) := by
  rw [dedupRows]

/-- length_dedupRows_le: duplicate removal never adds rows. -/
theorem length_dedupRows_le (l : List Row) : (dedupRows l).length ≤ l.length := by
  induction l using dedupRows.induct with
  | case1 => simp [dedupRows]
  | case2 r rs ih =>
      rw [dedupRows_cons]
      have := List.length_filter_le (fun x => x ≠ r) rs
      simpa using Nat.le_trans ih (by simpa using this)

/-- mem_of_mem_dedupRows: duplicate removal only keeps rows of the
input. -/
theorem mem_of_mem_dedupRows {r : Row} {l : List Row}
    (h : r ∈ dedupRows l) : r ∈ l := by
  induction l using dedupRows.induct with
  | case1 => simp [dedupRows] at h
  | case2 x rs ih =>
      rw [dedupRows_cons] at h
      rcases List.mem_cons.mp h with h1 | h2
      · simp [h1]
      · exact List.mem_cons_of_mem x (List.mem_of_mem_filter (ih h2))

/-- length_fillColumn: filling one column never changes the row count. -/
theorem length_fillColumn (stat : List ℚ → ℚ) (rows : List Row) (j : Nat) :
    (fillColumn stat rows j).length = rows.length := by
  unfold fillColumn
  cases colValues rows j with
  | nil => rfl
  | cons v vs => simp

/-- length_fillMissing: mean/median filling never changes the row
count. -/
theorem length_fillMissing (stat : List ℚ → ℚ) (df : DataFrame) :
    (fillMissing stat df).rows.length = df.rows.length := by
  unfold fillMissing
  generalize List.range df.columns.length = js
  induction js generalizing df with
  | nil => rfl
  | cons j t ih =>
      simp only [List.foldl_cons]
      have h1 := length_fillColumn stat df.rows j
      have h2 := ih { df with rows := fillColumn stat df.rows j }
      simpa [h1] using h2

/-- length_applyMissing_le: the missing-value stage never adds rows. -/
theorem length_applyMissing_le (df : DataFrame) (hm : String) :
    (applyMissing df hm).rows.length ≤ df.rows.length := by
  unfold applyMissing
  split
  · simpa [dropnaRows] using List.length_filter_le _ df.rows
  · split
    · simp [length_fillMissing]
    · split
      · simp [length_fillMissing]
      · simp

/-- length_applyDedup_le: the duplicate stage never adds rows. -/
theorem length_applyDedup_le (df : DataFrame) (rd : Bool) :
    (applyDedup df rd).rows.length ≤ df.rows.length := by
  unfold applyDedup
  split
  · simpa using length_dedupRows_le df.rows
  · simp

/-- length_applyOutlier_le: when the outlier stage succeeds it never adds
rows. -/
theorem length_applyOutlier_le {df df' : DataFrame} {ro : Bool}
    {oc : Option String} {om : String}
    (h : applyOutlier df ro oc om = .ok df') :
    df'.rows.length ≤ df.rows.length := by
  cases oc with
  | none =>
      simp only [applyOutlier, Except.ok.injEq] at h
      simp [← h]
  | some c =>
      simp only [applyOutlier] at h
      split at h
      · split at h
        · split at h
          · exact absurd h (by simp)
          · simp only [Except.ok.injEq] at h
            rw [← h]
            simpa [outlierStageRows] using List.length_filter_le _ df.rows
        · exact absurd h (by simp)
      · simp only [Except.ok.injEq] at h
        simp [← h]

/-- mem_of_mem_applyDedup: the duplicate stage only keeps input rows. -/
theorem mem_of_mem_applyDedup {df : DataFrame} {rd : Bool} {r : Row}
    (h : r ∈ (applyDedup df rd).rows) : r ∈ df.rows := by
  unfold applyDedup at h
  split at h
  · exact mem_of_mem_dedupRows (by simpa using h)
  · simpa using h

/-- mem_of_mem_applyOutlier: when the outlier stage succeeds it only
keeps input rows. -/
theorem mem_of_mem_applyOutlier {df df' : DataFrame} {ro : Bool}
    {oc : Option String} {om : String} {r : Row}
    (h : applyOutlier df ro oc om = .ok df') (hr : r ∈ df'.rows) :
    r ∈ df.rows := by
  cases oc with
  | none =>
      simp only [applyOutlier, Except.ok.injEq] at h
      rw [← h] at hr; exact hr
  | some c =>
      simp only [applyOutlier] at h
      split at h
      · split at h
        · split at h
          · exact absurd h (by simp)
          · simp only [Except.ok.injEq] at h
            rw [← h] at hr
            unfold outlierStageRows at hr
            exact List.mem_of_mem_filter hr
        · exact absurd h (by simp)
      · simp only [Except.ok.injEq] at h
        rw [← h] at hr; exact hr

/-- no_null_of_mem_dropnaRows: every row surviving `dropna` has no null
cell. -/
theorem no_null_of_mem_dropnaRows {r : Row} {rows : List Row}
    (h : r ∈ dropnaRows rows) : ∀ c ∈ r, c.isSome := by
  unfold dropnaRows at h
  have := List.of_mem_filter h
  intro c hc
  simpa using List.all_eq_true.mp this c hc

/-! ## Claim C1 -/

/-- C1: for every dataset and cleaning configuration, a successful
`clean_dataset` returns at most as many rows as its input, so the
endpoint quantity `rows_removed = rows_before − rows_after` is
non-negative and `rows_after = rows_before − rows_removed` by
construction. -/
theorem clean_dataset_never_adds_rows (df : DataFrame) (hm : String)
    (rd ro : Bool) (oc : Option String) (om : String) (df' : DataFrame)
    (h : clean_dataset df hm rd ro oc om = .ok df') :
    df'.rows.length ≤ df.rows.length ∧
      0 ≤ (df.rows.length : ℤ) - (df'.rows.length : ℤ) ∧
      (df'.rows.length : ℤ) =
        (df.rows.length : ℤ) -
          ((df.rows.length : ℤ) - (df'.rows.length : ℤ)) := by
  unfold clean_dataset at h
  have h3 := length_applyOutlier_le h
  have h2 := length_applyDedup_le (applyMissing df hm) rd
  have h1 := length_applyMissing_le df hm
  refine ⟨by omega, by omega, by ring⟩

/-- C1 witness: a concrete run (drop nulls, then deduplicate) goes from
three rows to one. -/
theorem clean_dataset_never_adds_rows_witness :
    ([[some (1:ℚ)]] : List Row).length ≤
      ([[some (1:ℚ)], [some 1], [none]] : List Row).length :=
  (clean_dataset_never_adds_rows ⟨["a"], [[some 1], [some 1], [none]]⟩
    "drop" true false none "zscore" ⟨["a"], [[some 1]]⟩
    (by simp [clean_dataset, applyMissing, dropnaRows, applyDedup,
      dedupRows, applyOutlier])).1

/-! ## Claim C3 -/

/-- C3 counterexample: `clean_dataset` with the unrecognized policy
string `"bogus"` does NOT fail: the if/elif chain of the source has no
else branch, so the missing-value stage is silently skipped, the nulls
survive, and the call succeeds. -/
theorem clean_dataset_unknown_policy_succeeds :
    clean_dataset ⟨["a"], [[none], [some 1]]⟩ "bogus" false false none "zscore" =
      .ok ⟨["a"], [[none], [some 1]]⟩ := by
  simp [clean_dataset, applyMissing, applyDedup, applyOutlier]

/-- C3 amended: a `handle_missing` value other than drop/mean/median is
silently ignored — the pipeline continues with the dataframe unchanged
by stage 1 (no `InvalidPolicy` error exists in the code). -/
theorem clean_dataset_unknown_policy_skips (df : DataFrame) (p : String)
    (rd ro : Bool) (oc : Option String) (om : String)
    (h1 : p ≠ "drop") (h2 : p ≠ "mean") (h3 : p ≠ "median") :
    clean_dataset df p rd ro oc om = applyOutlier (applyDedup df rd) ro oc om := by
  unfold clean_dataset applyMissing
  simp [h1, h2, h3]

/-- C3 amended witness: the skip equation at a concrete dataframe and
policy. -/
theorem clean_dataset_unknown_policy_skips_witness :
    clean_dataset ⟨["a"], [[none]]⟩ "bogus" false false none "zscore" =
      applyOutlier (applyDedup ⟨["a"], [[none]]⟩ false) false none "zscore" :=
  clean_dataset_unknown_policy_skips ⟨["a"], [[none]]⟩ "bogus" false false
    none "zscore" (by decide) (by decide) (by decide)

/-! ## Claim C4 -/

/-- C4 counterexample: with `remove_outliers` enabled and the target
column absent (`None`) or empty (`""`), `clean_dataset` does NOT fail:
the guard `if remove_outliers and outlier_column:` is falsy, so the
outlier stage is silently skipped and the call succeeds. -/
theorem clean_dataset_falsy_outlier_column_succeeds :
    clean_dataset ⟨["a"], [[some 1], [some 100]]⟩ "drop" false true none "zscore" =
      .ok ⟨["a"], [[some 1], [some 100]]⟩ ∧
    clean_dataset ⟨["a"], [[some 1], [some 100]]⟩ "drop" false true (some "") "zscore" =
      .ok ⟨["a"], [[some 1], [some 100]]⟩ := by
  constructor
  · simp [clean_dataset, applyMissing, dropnaRows, applyDedup, applyOutlier]
  · simp [clean_dataset, applyMissing, dropnaRows, applyDedup, applyOutlier]

/-- C4 amended: with outlier removal enabled, an absent or empty target
column silently skips the outlier stage (no configuration error), while
a non-empty target column missing from the post-cleaning dataframe fails
with the column-not-found error. -/
theorem clean_dataset_outlier_column_dispatch (df : DataFrame) (hm : String)
    (rd : Bool) (om : String) :
    clean_dataset df hm rd true none om =
        .ok (applyDedup (applyMissing df hm) rd) ∧
    clean_dataset df hm rd true (some "") om =
        .ok (applyDedup (applyMissing df hm) rd) ∧
    (∀ c : String, c ≠ "" →
      c ∉ (applyDedup (applyMissing df hm) rd).columns →
      clean_dataset df hm rd true (some c) om =
        .error ("Column " ++ c ++ " not found")) := by
  refine ⟨rfl, by simp [clean_dataset, applyOutlier], ?_⟩
  intro c hc hmem
  unfold clean_dataset applyOutlier
  simp [hc, hmem]

/-- C4 amended witness: the column-not-found branch at a concrete
dataframe and column name. -/
theorem clean_dataset_outlier_column_dispatch_witness :
    clean_dataset ⟨["a"], []⟩ "drop" false true (some "b") "zscore" =
      .error ("Column " ++ "b" ++ " not found") :=
  (clean_dataset_outlier_column_dispatch ⟨["a"], []⟩ "drop" false "zscore").2.2
    "b" (by decide) (by simp [applyDedup, applyMissing, dropnaRows])

/-! ## Claim C10 -/

/-- C10: with `handle_missing = "drop"`, whatever the other settings,
every row of a successful `clean_dataset` output is null-free: the drop
stage keeps only null-free rows and the later stages only remove whole
rows. -/
theorem clean_dataset_drop_output_null_free (df : DataFrame) (rd ro : Bool)
    (oc : Option String) (om : String) (df' : DataFrame)
    (h : clean_dataset df "drop" rd ro oc om = .ok df') :
    ∀ r ∈ df'.rows, ∀ c ∈ r, c.isSome := by
  unfold clean_dataset at h
  intro r hr c hc
  have hr2 : r ∈ (applyDedup (applyMissing df "drop") rd).rows :=
    mem_of_mem_applyOutlier h hr
  have hr3 : r ∈ (applyMissing df "drop").rows := mem_of_mem_applyDedup hr2
  have hr4 : r ∈ dropnaRows df.rows := by simpa [applyMissing] using hr3
  exact no_null_of_mem_dropnaRows hr4 c hc

/-- C10 witness: the null-freeness at a concrete cleaned cell. -/
theorem clean_dataset_drop_output_null_free_witness :
    (some (2:ℚ)).isSome := by
  refine clean_dataset_drop_output_null_free ⟨["a"], [[none], [some 2]]⟩
    false false none "zscore" ⟨["a"], [[some 2]]⟩ ?_ [some 2] ?_ (some 2) ?_
  · simp [clean_dataset, applyMissing, dropnaRows, applyDedup, applyOutlier]
  · simp
  · simp

/-! ## Claim C5 -/

/-- C5 counterexample: a boolean column does NOT get a categorical
summary — `pd.api.types.is_numeric_dtype` holds of the bool dtype, so
`calculate_statistics` routes a boolean column to the numeric summary
(True/False coerce to 1/0), while the routing the spec describes
(`categoricalPerSpec`) calls the boolean dtype categorical. -/
theorem bool_column_gets_numeric_summary :
    calculate_statistics_column (ColumnData.boolCol [true, false]) =
      ColStats.numeric
        { count := 2, mean := 1/2, median := 1/2, variance := 1/2,
          min := 0, max := 1, q1 := 1/4, q3 := 3/4, iqr := 1/2 } ∧
    categoricalPerSpec (dtypeOf (ColumnData.boolCol [true, false])) = true := by
  constructor
  · norm_num [calculate_statistics_column, numeric_statistics, meanQ,
      sampleVarQ, sqDevSum, quantileQ, interpLinear, sortQ, insertSorted,
      Int.toNat]
  · rfl

/-- C5 amended: a column receives a categorical summary exactly when
`is_numeric_dtype` fails of its derived dtype, and the dtypes failing it
are exactly datetime and object — so boolean columns (like numeric ones)
go to the numeric summary, not the categorical one. -/
theorem statistics_column_routing (col : ColumnData) :
    ((∃ s, calculate_statistics_column col = ColStats.categorical s) ↔
      is_numeric_dtype (dtypeOf col) = false) ∧
    (is_numeric_dtype (dtypeOf col) = false ↔
      (dtypeOf col = Dtype.datetime ∨ dtypeOf col = Dtype.object)) := by
  cases col with
  | numericCol vs =>
      refine ⟨?_, by simp [dtypeOf, is_numeric_dtype]⟩
      simp only [calculate_statistics_column, numeric_statistics, dtypeOf,
        is_numeric_dtype]
      split <;> simp
  | boolCol vs =>
      refine ⟨?_, by simp [dtypeOf, is_numeric_dtype]⟩
      simp only [calculate_statistics_column, numeric_statistics, dtypeOf,
        is_numeric_dtype]
      split <;> simp
  | datetimeCol vs =>
      exact ⟨by simp [calculate_statistics_column, categorical_statistics,
        dtypeOf, is_numeric_dtype], by simp [dtypeOf, is_numeric_dtype]⟩
  | objectCol vs =>
      exact ⟨by simp [calculate_statistics_column, categorical_statistics,
        dtypeOf, is_numeric_dtype], by simp [dtypeOf, is_numeric_dtype]⟩

/-! ## Claim C9 -/

/-- C9: a numeric-dtyped column with zero non-null values yields the
explicit no-numeric-data marker, not a numeric summary and not a
failure. -/
theorem numeric_column_empty_no_data_marker (vs : List (Option ℚ))
    (h : dropNones vs = []) :
    calculate_statistics_column (ColumnData.numericCol vs) =
      ColStats.noNumericData := by
  simp [calculate_statistics_column, numeric_statistics, h]

/-- C9 witness: the all-null numeric column `[null, null]`. -/
theorem numeric_column_empty_no_data_marker_witness :
    dropNones [none, none] = [] ∧
      calculate_statistics_column (ColumnData.numericCol [none, none]) =
        ColStats.noNumericData :=
  ⟨by simp [dropNones],
    numeric_column_empty_no_data_marker [none, none] (by simp [dropNones])⟩

/-! ## Claim C6 -/

/-- C6 (code bug): on a column with zero non-null values both methods of
`detect_outliers` compute `(0 / len(data)) * 100` with `len(data) = 0`;
NumPy turns that `0/0` into NaN (modelled `none`), so the reported
`outlier_percentage` is a non-finite value, not the `0` the claim
requires; for the IQR method the NaN quantiles also leave both bounds
NaN (`none`). -/
theorem detect_outliers_empty_column_nan_percentage :
    detect_outliers [none] "zscore" =
      .ok { method := "Z-Score", threshold := some 3,
            lower_bound := none, upper_bound := none,
            total_outliers := 0, outlier_percentage := none,
            outlier_indices := [], outlier_values := [] } ∧
    detect_outliers [none] "iqr" =
      .ok { method := "IQR", threshold := none,
            lower_bound := none, upper_bound := none,
            total_outliers := 0, outlier_percentage := none,
            outlier_indices := [], outlier_values := [] } := by
  constructor
  · simp [detect_outliers, dropNonesIdx, List.enum, pctOf]
  · simp [detect_outliers, dropNonesIdx, List.enum, pctOf]

/-! ## Claim C7 -/

/-- filter_const_flag_nil: on a column whose non-null values are all
equal, any flag test that rejects the constant value on constant data
flags nothing. -/
theorem filter_const_flag_nil {values : List (Option ℚ)} {v : ℚ}
    (flag : List ℚ → ℚ → Bool)
    (hflag : ∀ n : Nat, n ≠ 0 → flag (List.replicate n v) v = false)
    (hconst : ∀ x ∈ dropNones values, x = v) :
    (dropNonesIdx values).filter
      (fun p => flag ((dropNonesIdx values).map Prod.snd) p.2) = [] := by
  rw [List.filter_eq_nil_iff]
  intro p hp
  have hsnd : p.2 ∈ dropNones values := snd_mem_of_mem_dropNonesIdx hp
  have hv : p.2 = v := hconst _ hsnd
  have hrep : dropNones values = List.replicate (dropNones values).length v :=
    eq_replicate_of_all_eq hconst
  obtain ⟨n, hn⟩ : ∃ n, (dropNones values).length = n := ⟨_, rfl⟩
  rw [hn] at hrep
  have hn0 : n ≠ 0 := by
    intro h0
    rw [h0] at hrep
    rw [hrep] at hsnd
    simp at hsnd
  rw [map_snd_dropNonesIdx, hrep, hv, hflag n hn0]
  simp

/-- C7: on a column whose null-dropped values are all equal (a constant
or single-value column) both methods report zero outliers and an empty
index list: the z-scores are all NaN (flagging nothing) and the IQR
bounds collapse onto the value. -/
theorem detect_outliers_constant_column (values : List (Option ℚ)) (v : ℚ)
    (hconst : ∀ x ∈ dropNones values, x = v) :
    (∃ info, detect_outliers values "zscore" = .ok info ∧
      info.total_outliers = 0 ∧ info.outlier_indices = []) ∧
    (∃ info, detect_outliers values "iqr" = .ok info ∧
      info.total_outliers = 0 ∧ info.outlier_indices = []) := by
  have hz := filter_const_flag_nil zscoreFlag
    (fun n hn => zscoreFlag_replicate hn v) hconst
  have hi := filter_const_flag_nil iqrFlag
    (fun n hn => iqrFlag_replicate hn v) hconst
  constructor
  · have hzeq : detect_outliers values "zscore" =
        .ok { method := "Z-Score", threshold := some 3,
              lower_bound := none, upper_bound := none,
              total_outliers := 0,
              outlier_percentage :=
                pctOf 0 ((dropNonesIdx values).map Prod.snd).length,
              outlier_indices := [], outlier_values := [] } := by
      simp [detect_outliers, hz]
    exact ⟨_, hzeq, rfl, rfl⟩
  · by_cases he : ((dropNonesIdx values).map Prod.snd).isEmpty
    · have hieq : detect_outliers values "iqr" =
          .ok { method := "IQR", threshold := none,
                lower_bound := none, upper_bound := none,
                total_outliers := 0,
                outlier_percentage :=
                  pctOf 0 ((dropNonesIdx values).map Prod.snd).length,
                outlier_indices := [], outlier_values := [] } := by
        simp [detect_outliers, he]
      exact ⟨_, hieq, rfl, rfl⟩
    · have hieq : detect_outliers values "iqr" =
          .ok { method := "IQR", threshold := none,
                lower_bound :=
                  some (iqrLowerBound ((dropNonesIdx values).map Prod.snd)),
                upper_bound :=
                  some (iqrUpperBound ((dropNonesIdx values).map Prod.snd)),
                total_outliers := 0,
                outlier_percentage :=
                  pctOf 0 ((dropNonesIdx values).map Prod.snd).length,
                outlier_indices := [], outlier_values := [] } := by
        simp [detect_outliers, he, hi]
      exact ⟨_, hieq, rfl, rfl⟩

/-- C7 witness: on the single-value column `[5]` the reported zscore
outlier total is 0. -/
theorem detect_outliers_constant_column_witness :
    (detect_outliers [some (5:ℚ)] "zscore").map OutlierInfo.total_outliers =
      .ok 0 := by
  obtain ⟨⟨info, heq, htot, hidx⟩, -⟩ :=
    detect_outliers_constant_column [some 5] 5 (by simp [dropNones])
  rw [heq, Except.map, htot]

/-! ## Claim C2 -/

/-- C2 counterexample: scipy `stats.zscore` divides by the POPULATION
standard deviation (`ddof = 0`), not the sample one the claim names.  On
the 19-value column of seventeen 0s with 1 and −1, the population
z-score of ±1 is √9.5 > 3 while the sample z-score is exactly 3, so
`detect_outliers` flags two values although the claimed sample-std rule
(`zscoreFlagSample`) flags none. -/
theorem detect_outliers_zscore_not_sample_std :
    detect_outliers
        [some 0, some 0, some 0, some 0, some 0, some 0, some 0, some 0,
         some 0, some 0, some 0, some 0, some 0, some 0, some 0, some 0,
         some 0, some 1, some (-1)] "zscore" =
      .ok { method := "Z-Score", threshold := some 3,
            lower_bound := none, upper_bound := none,
            total_outliers := 2, outlier_percentage := some (200/19),
            outlier_indices := [17, 18], outlier_values := [1, -1] } ∧
    ([0, 0, 0, 0, 0, 0, 0, 0, 0, 0, 0, 0, 0, 0, 0, 0, 0, 1, -1] :
        List ℚ).all
      (fun x =>
        !zscoreFlagSample
          [0, 0, 0, 0, 0, 0, 0, 0, 0, 0, 0, 0, 0, 0, 0, 0, 0, 1, -1] x) =
      true := by
  have hmean :
      meanQ [0, 0, 0, 0, 0, 0, 0, 0, 0, 0, 0, 0, 0, 0, 0, 0, 0, 1, -1] = 0 := by
    norm_num [meanQ]
  have hsq :
      sqDevSum [0, 0, 0, 0, 0, 0, 0, 0, 0, 0, 0, 0, 0, 0, 0, 0, 0, 1, -1] =
        2 := by
    norm_num [sqDevSum, hmean]
  have hpv :
      popVarQ [0, 0, 0, 0, 0, 0, 0, 0, 0, 0, 0, 0, 0, 0, 0, 0, 0, 1, -1] =
        2/19 := by
    norm_num [popVarQ, hsq]
  have hsv :
      sampleVarQ [0, 0, 0, 0, 0, 0, 0, 0, 0, 0, 0, 0, 0, 0, 0, 0, 0, 1, -1] =
        1/9 := by
    norm_num [sampleVarQ, hsq]
  have hf0 :
      zscoreFlag [0, 0, 0, 0, 0, 0, 0, 0, 0, 0, 0, 0, 0, 0, 0, 0, 0, 1, -1]
        0 = false := by
    norm_num [zscoreFlag, hpv, hmean]
  have hf1 :
      zscoreFlag [0, 0, 0, 0, 0, 0, 0, 0, 0, 0, 0, 0, 0, 0, 0, 0, 0, 1, -1]
        1 = true := by
    norm_num [zscoreFlag, hpv, hmean]
  have hfm :
      zscoreFlag [0, 0, 0, 0, 0, 0, 0, 0, 0, 0, 0, 0, 0, 0, 0, 0, 0, 1, -1]
        (-1) = true := by
    norm_num [zscoreFlag, hpv, hmean]
  have hs0 :
      zscoreFlagSample
        [0, 0, 0, 0, 0, 0, 0, 0, 0, 0, 0, 0, 0, 0, 0, 0, 0, 1, -1] 0 =
        false := by
    norm_num [zscoreFlagSample, hsv, hmean]
  have hs1 :
      zscoreFlagSample
        [0, 0, 0, 0, 0, 0, 0, 0, 0, 0, 0, 0, 0, 0, 0, 0, 0, 1, -1] 1 =
        false := by
    norm_num [zscoreFlagSample, hsv, hmean]
  have hsm :
      zscoreFlagSample
        [0, 0, 0, 0, 0, 0, 0, 0, 0, 0, 0, 0, 0, 0, 0, 0, 0, 1, -1] (-1) =
        false := by
    norm_num [zscoreFlagSample, hsv, hmean]
  have hpairs :
      dropNonesIdx
        [some 0, some 0, some 0, some 0, some 0, some 0, some 0, some 0,
         some 0, some 0, some 0, some 0, some 0, some 0, some 0, some 0,
         some 0, some 1, some (-1)] =
        [(0, 0), (1, 0), (2, 0), (3, 0), (4, 0), (5, 0), (6, 0), (7, 0),
         (8, 0), (9, 0), (10, 0), (11, 0), (12, 0), (13, 0), (14, 0),
         (15, 0), (16, 0), (17, 1), (18, -1)] := by
    simp [dropNonesIdx, List.enum]
  constructor
  · simp [detect_outliers, hpairs, List.filter, hf0, hf1, hfm, pctOf]
    norm_num
  · simp [List.all, hs0, hs1, hsm]

/-- C2 amended: the z-score method flags exactly the values whose
POPULATION z-score (σ with the n denominator) exceeds 3 in absolute
value, equivalently `n·(x−μ)² > 9·Σ(xᵢ−μ)²`; on the example column
`[1,2,3,4,5,100]` the z-score method flags nothing while the IQR method
reports bounds `[-1.5, 8.5]` and flags exactly the value 100. -/
theorem zscore_population_flag_and_example :
    (∀ (data : List ℚ) (x : ℚ), x ∈ data →
      (zscoreFlag data x = true ↔
        (data.length : ℚ) * (x - meanQ data) ^ 2 > 9 * sqDevSum data)) ∧
    detect_outliers [some 1, some 2, some 3, some 4, some 5, some 100]
        "zscore" =
      .ok { method := "Z-Score", threshold := some 3,
            lower_bound := none, upper_bound := none,
            total_outliers := 0, outlier_percentage := some 0,
            outlier_indices := [], outlier_values := [] } ∧
    detect_outliers [some 1, some 2, some 3, some 4, some 5, some 100]
        "iqr" =
      .ok { method := "IQR", threshold := none,
            lower_bound := some (-3/2), upper_bound := some (17/2),
            total_outliers := 1, outlier_percentage := some (50/3),
            outlier_indices := [5], outlier_values := [100] } := by
  refine ⟨?_, ?_, ?_⟩
  · intro data x hx
    have hn : (0:ℚ) < (data.length : ℚ) := by
      exact_mod_cast List.length_pos.mpr (List.ne_nil_of_mem hx)
    rw [zscoreFlag, decide_eq_true_eq, popVarQ, gt_iff_lt, gt_iff_lt,
      ← mul_div_assoc, div_lt_iff₀ hn]
    constructor <;> intro h <;> linarith
  · have e1 : dropNonesIdx [some 1, some 2, some 3, some 4, some 5, some 100] =
        [(0, 1), (1, 2), (2, 3), (3, 4), (4, 5), (5, 100)] := by
      simp [dropNonesIdx, List.enum]
    have f1 : zscoreFlag [1, 2, 3, 4, 5, 100] 1 = false := by
      norm_num [zscoreFlag, popVarQ, sqDevSum, meanQ]
    have f2 : zscoreFlag [1, 2, 3, 4, 5, 100] 2 = false := by
      norm_num [zscoreFlag, popVarQ, sqDevSum, meanQ]
    have f3 : zscoreFlag [1, 2, 3, 4, 5, 100] 3 = false := by
      norm_num [zscoreFlag, popVarQ, sqDevSum, meanQ]
    have f4 : zscoreFlag [1, 2, 3, 4, 5, 100] 4 = false := by
      norm_num [zscoreFlag, popVarQ, sqDevSum, meanQ]
    have f5 : zscoreFlag [1, 2, 3, 4, 5, 100] 5 = false := by
      norm_num [zscoreFlag, popVarQ, sqDevSum, meanQ]
    have f6 : zscoreFlag [1, 2, 3, 4, 5, 100] 100 = false := by
      norm_num [zscoreFlag, popVarQ, sqDevSum, meanQ]
    simp [detect_outliers, e1, List.filter, f1, f2, f3, f4, f5, f6, pctOf]
  · have e1 : dropNonesIdx [some 1, some 2, some 3, some 4, some 5, some 100] =
        [(0, 1), (1, 2), (2, 3), (3, 4), (4, 5), (5, 100)] := by
      simp [dropNonesIdx, List.enum]
    have lb : iqrLowerBound [1, 2, 3, 4, 5, 100] = -3/2 := by
      norm_num [iqrLowerBound, quantileQ, interpLinear, sortQ, insertSorted,
        Int.toNat]
    have ub : iqrUpperBound [1, 2, 3, 4, 5, 100] = 17/2 := by
      norm_num [iqrUpperBound, quantileQ, interpLinear, sortQ, insertSorted,
        Int.toNat]
    have f1 : iqrFlag [1, 2, 3, 4, 5, 100] 1 = false := by norm_num [iqrFlag, lb, ub]
    have f2 : iqrFlag [1, 2, 3, 4, 5, 100] 2 = false := by norm_num [iqrFlag, lb, ub]
    have f3 : iqrFlag [1, 2, 3, 4, 5, 100] 3 = false := by norm_num [iqrFlag, lb, ub]
    have f4 : iqrFlag [1, 2, 3, 4, 5, 100] 4 = false := by norm_num [iqrFlag, lb, ub]
    have f5 : iqrFlag [1, 2, 3, 4, 5, 100] 5 = false := by norm_num [iqrFlag, lb, ub]
    have f6 : iqrFlag [1, 2, 3, 4, 5, 100] 100 = true := by norm_num [iqrFlag, lb, ub]
    simp [detect_outliers, e1, List.filter, f1, f2, f3, f4, f5, f6, lb, ub, pctOf]
    norm_num

/-- C2 amended witness: the population-z characterization instantiated
on the column `[1, 2, 3]` at the value 1. -/
theorem zscore_population_flag_and_example_witness :
    (1:ℚ) ∈ ([1, 2, 3] : List ℚ) ∧
      (zscoreFlag [1, 2, 3] 1 = true ↔
        ((([1, 2, 3] : List ℚ).length : ℚ) * ((1:ℚ) - meanQ [1, 2, 3]) ^ 2 >
          9 * sqDevSum [1, 2, 3])) :=
  ⟨by simp, zscore_population_flag_and_example.1 [1, 2, 3] 1 (by simp)⟩

/-! ## Claim C8 -/

/-- C8 counterexample: the outlier stage does not remove only flagged
values.  On the single-row dataframe with constant target column `[5]`,
the z-score keep mask `z_scores <= 3` is NaN-false everywhere, so
`clean_dataset` removes the row — yet `detect_outliers` flags nothing on
that same column (zero outliers), so the removed row was never flagged. -/
theorem clean_dataset_zscore_constant_removes_unflagged :
    clean_dataset ⟨["a"], [[some 5]]⟩ "drop" false true (some "a") "zscore" =
      .ok ⟨["a"], []⟩ ∧
    detect_outliers [some (5:ℚ)] "zscore" =
      .ok { method := "Z-Score", threshold := some 3,
            lower_bound := none, upper_bound := none,
            total_outliers := 0, outlier_percentage := some 0,
            outlier_indices := [], outlier_values := [] } := by
  have hk : zscoreKeep [5] (5:ℚ) = false := by
    norm_num [zscoreKeep, popVarQ, sqDevSum, meanQ]
  constructor
  · simp [clean_dataset, applyMissing, dropnaRows, applyDedup, applyOutlier,
      keepByMethod, outlierStageRows, colValues, getCell, List.filter, hk]
  · have hpairs : dropNonesIdx [some (5:ℚ)] = [(0, 5)] := by
      simp [dropNonesIdx, List.enum]
    have hf : zscoreFlag [5] (5:ℚ) = false := by
      norm_num [zscoreFlag, popVarQ, sqDevSum, meanQ]
    simp [detect_outliers, hpairs, List.filter, hf, pctOf]

/-- C8 amended: when the outlier stage runs (flag set, non-empty target
column present, known method) the output rows are exactly the current
rows filtered by the per-value keep mask, so rows with a null target are
always retained and a row with target value v survives iff the mask
keeps v; the mask is the negation of the detection flag for the IQR
method always, and for the z-score method exactly when the target
column's population variance is non-zero — on a constant column
(variance 0) the z-score mask removes every non-null-target row even
though detection flags none of them. -/
theorem applyOutlier_filter_characterization (df : DataFrame) (c : String)
    (om : String) (keep : ℚ → Bool) (hc : c ≠ "") (hmem : c ∈ df.columns)
    (hkeep : keepByMethod om (colValues df.rows (df.columns.indexOf c)) =
      .ok keep) :
    applyOutlier df true (some c) om =
        .ok ⟨df.columns, outlierStageRows df.rows (df.columns.indexOf c) keep⟩ ∧
    (∀ r ∈ df.rows, getCell r (df.columns.indexOf c) = none →
      r ∈ outlierStageRows df.rows (df.columns.indexOf c) keep) ∧
    (∀ r ∈ df.rows, ∀ v : ℚ, getCell r (df.columns.indexOf c) = some v →
      (r ∈ outlierStageRows df.rows (df.columns.indexOf c) keep ↔
        keep v = true)) ∧
    (om = "iqr" →
      ∀ v : ℚ, keep v =
        !iqrFlag (colValues df.rows (df.columns.indexOf c)) v) ∧
    (om = "zscore" →
      popVarQ (colValues df.rows (df.columns.indexOf c)) ≠ 0 →
      ∀ v : ℚ, keep v =
        !zscoreFlag (colValues df.rows (df.columns.indexOf c)) v) ∧
    (om = "zscore" →
      popVarQ (colValues df.rows (df.columns.indexOf c)) = 0 →
      ∀ v : ℚ, keep v = false) := by
  refine ⟨?_, ?_, ?_, ?_, ?_, ?_⟩
  · simp [applyOutlier, hc, hmem, hkeep]
  · intro r hr hnull
    refine List.mem_filter.mpr ⟨hr, ?_⟩
    simp [hnull]
  · intro r hr v hv
    unfold outlierStageRows
    rw [List.mem_filter]
    simp [hr, hv]
  · intro hom v
    subst hom
    simp [keepByMethod] at hkeep
    rw [← hkeep, iqrKeep, iqrFlag, ← decide_not]
    apply decide_eq_decide.mpr
    rw [not_or, not_lt, not_lt]
  · intro hom hpv v
    subst hom
    simp [keepByMethod] at hkeep
    rw [← hkeep, zscoreKeep, zscoreFlag, ← decide_not]
    apply decide_eq_decide.mpr
    simp [hpv, not_lt]
  · intro hom hpv v
    subst hom
    simp [keepByMethod] at hkeep
    rw [← hkeep]
    simp [zscoreKeep, hpv]

/-- C8 amended witness: on the dataframe with target column `[1, null]`
and the IQR method, the null-target row is retained by the stage. -/
theorem applyOutlier_filter_characterization_witness :
    [(none : Option ℚ)] ∈ outlierStageRows [[some (1:ℚ)], [none]]
        ((["a"] : List String).indexOf "a") (iqrKeep [1]) :=
  ((applyOutlier_filter_characterization ⟨["a"], [[some 1], [none]]⟩ "a"
      "iqr" (iqrKeep [1]) (by decide) (by simp)
      (by simp [keepByMethod, colValues, getCell])).2.1)
    [none] (by simp) (by rfl)

